import Mathlib

/-!
Verification development for the pCloudy MCP server (Python sources
`src/pcloudy_api.py`, `src/mcp_tools.py`, `src/utils.py`, `src/config.py`).

The Python code is shallowly embedded as pure Lean functions:

* HTTP effects are modelled by passing the outcome of each HTTP exchange
  (`HttpOutcome`) as an explicit argument; an operation additionally
  returns the list of HTTP calls it actually performed (`List HttpCall`).
* Python exceptions are modelled by `Except PyErr`; `PyErr.requestError`
  stands for `httpx.RequestError` (transport failure) and
  `PyErr.otherError` for every other exception class
  (`httpx.HTTPStatusError` from `raise_for_status`, `ValueError` from
  `parse_response` and validation checks, ...).
* `time.time()` is modelled by an explicit `now : Nat` argument.
* The mutable fields of the `PCloudyAPI` object (`auth_token`,
  `token_timestamp`, `rid`) form `ApiState`, passed and returned
  explicitly.
* Python dictionaries coming back from the remote service are modelled by
  structures whose fields are `Option`-valued (a `none` field models an
  absent key); Python truthiness (`if not x`) is modelled by `strTruthy` /
  `natTruthy`.
* The async tool wrappers in `mcp_tools.py` are modelled as total
  functions receiving the outcome (`Except PyErr _`) of the client call
  they wrap: totality of the Lean function is the model of "the tool never
  lets an exception escape".
-/

instance {ε α : Type} [DecidableEq ε] [DecidableEq α] : DecidableEq (Except ε α) := by
  intro a b
  cases a <;> cases b <;>
    first
      | (apply isFalse; intro h; exact Except.noConfusion h)
      | (rename_i x y
         exact if h : x = y then isTrue (by rw [h]) else isFalse (by intro hc; cases hc; exact h rfl))

/-- Python truthiness of an optional string: `None` and `""` are falsy. -/
def strTruthy : Option String → Bool
  | none => false
  | some s => if s = "" then false else true

/-- Python truthiness of an optional number: `None` and `0` are falsy. -/
def natTruthy : Option Nat → Bool
  | none => false
  | some n => if n = 0 then false else true

/-- Model of Python exception values raised by the client layer.
`requestError` models `httpx.RequestError` (transport-level failures);
`otherError` models every other exception (`httpx.HTTPStatusError`,
`ValueError` from `parse_response`, ...). The string is `str(e)`. -/
inductive PyErr where
  | requestError (m : String)
  | otherError (m : String)
deriving Repr, DecidableEq

/-- `str(e)` of a modelled Python exception. -/
def PyErr.msg : PyErr → String
  | .requestError m => m
  | .otherError m => m

/-- The outcome of one HTTP exchange (request + `raise_for_status` +
`parse_response`), supplied by the environment. `transportError` models the
client call itself raising `httpx.RequestError`; `badResponse` models
`raise_for_status` raising `httpx.HTTPStatusError` or `parse_response`
raising `ValueError`; `ok` carries the parsed `result` payload. -/
inductive HttpOutcome (α : Type) where
  | transportError (m : String)
  | badResponse (m : String)
  | ok (r : α)
deriving Repr, DecidableEq

/-- The tool-layer response envelope `{content: [{type:"text", text}], isError}`.
Every envelope built by this code base has exactly one text block, modelled
by the single `text` field. -/
structure Envelope where
  text : String
  isError : Bool
deriving Repr, DecidableEq

/-- The mutable fields of the `PCloudyAPI` object (`__init__`, line 14-22 of
`pcloudy_api.py`): `auth_token`, `token_timestamp` and the shared `rid`. -/
structure ApiState where
  auth_token : Option String
  token_timestamp : Option Nat
  rid : Option String
deriving Repr, DecidableEq

/-- Identifiers for the HTTP endpoints the client can hit; operations
return the list of calls they performed, in order. -/
inductive HttpCall where
  | auth
  | content
  | uploadFile
  | screenshot
  | releaseDevice
deriving Repr, DecidableEq

/-- `Config.TOKEN_REFRESH_THRESHOLD` (`config.py`). -/
def TOKEN_REFRESH_THRESHOLD : Nat := 3600

/-- Parsed result of the `/access` endpoint: `result.get("token")`. -/
structure AuthResult where
  token : Option String
deriving Repr, DecidableEq

/-- `PCloudyAPI.authenticate` (`pcloudy_api.py` lines 24-45).
Performs the GET against `/access`; on a well-formed response stores
`result.get("token")` into `auth_token` *before* checking its truthiness,
raises `ValueError` if it is falsy, otherwise records the acquisition time
and returns the token. Transport errors and parse failures are re-raised. -/
def authenticate (st : ApiState) (now : Nat) (resp : HttpOutcome AuthResult) :
    Except PyErr String × ApiState :=
  match resp with
  | .transportError m => (.error (.requestError m), st)
  | .badResponse m => (.error (.otherError m), st)
  | .ok r =>
      let st1 : ApiState := { st with auth_token := r.token }
      if strTruthy r.token = false then
        (.error (.otherError "Authentication failed: No token received"), st1)
      else
        (.ok (r.token.getD ""), { st1 with token_timestamp := some now })

/-- `PCloudyAPI.check_token_validity` (`pcloudy_api.py` lines 47-54).
If `auth_token` is falsy, or `token_timestamp` is truthy and the elapsed
time strictly exceeds `TOKEN_REFRESH_THRESHOLD`, re-authenticates (one
HTTP call against `/access`); otherwise returns the current token and makes
no HTTP call. The third component counts `authenticate` invocations. -/
def check_token_validity (st : ApiState) (now : Nat) (resp : HttpOutcome AuthResult) :
    Except PyErr String × ApiState × Nat :=
  if strTruthy st.auth_token = false then
    match authenticate st now resp with
    | (r, st2) => (r, st2, 1)
  else
    match st.token_timestamp with
    | none => (.ok (st.auth_token.getD ""), st, 0)
    | some ts =>
        if ts ≠ 0 ∧ (now : Int) - (ts : Int) > (TOKEN_REFRESH_THRESHOLD : Int) then
          match authenticate st now resp with
          | (r, st2) => (r, st2, 1)
        else
          (.ok (st.auth_token.getD ""), st, 0)

/-- The list of `/access` calls made when `authenticate` was invoked
`n` times. -/
def authCalls (n : Nat) : List HttpCall := List.replicate n HttpCall.auth

/-- Python `s.strip(c)` for a single strip character: removes every leading
and trailing occurrence of `c`. -/
def stripChar (c : Char) (s : String) : String :=
  String.mk (((s.data.dropWhile (fun a => a == c)).reverse.dropWhile (fun a => a == c)).reverse)

/-- `file_path.strip('"').strip("'")` from `upload_file`
(`pcloudy_api.py` line 120). -/
def stripQuotes (s : String) : String :=
  stripChar '\x27' (stripChar '"' s)

/-- `os.path.basename` on a POSIX path: everything after the last slash. -/
def basename (s : String) : String :=
  String.mk ((s.data.reverse.takeWhile (fun c => c != '/')).reverse)

/-- Python `s.lower()`, as a structural per-character map (ASCII case
folding, which covers every string this code base compares). -/
def pyLower (s : String) : String :=
  String.mk (s.data.map Char.toLower)

/-- Python `s.strip()`: removes leading and trailing whitespace. -/
def pyStrip (s : String) : String :=
  String.mk (((s.data.dropWhile Char.isWhitespace).reverse.dropWhile Char.isWhitespace).reverse)

/-- Parsed result of the `/content` endpoint as consumed by
`list_cloud_files`: either a JSON object (`dict`) whose optional `files`
entry is a list of file names, or a non-object payload (`nondict`, the
`isinstance(result, dict)` failure case). -/
inductive ParsedContent where
  | dict (files : Option (List String))
  | nondict
deriving Repr, DecidableEq

/-- `PCloudyAPI.list_cloud_files` (`pcloudy_api.py` lines 103-116).
Checks the token, GETs `/content`, and returns the names under `files`;
any exception anywhere (token check included) is swallowed and yields `[]`. -/
def list_cloud_files (st : ApiState) (now : Nat) (aResp : HttpOutcome AuthResult)
    (cResp : HttpOutcome ParsedContent) : List String × ApiState × List HttpCall :=
  match check_token_validity st now aResp with
  | (.error _, st1, n) => ([], st1, authCalls n)
  | (.ok _, st1, n) =>
      let tr := authCalls n ++ [HttpCall.content]
      match cResp with
      | .transportError _ => ([], st1, tr)
      | .badResponse _ => ([], st1, tr)
      | .ok .nondict => ([], st1, tr)
      | .ok (.dict files) => (files.getD [], st1, tr)

/-- Parsed result of the `/upload_file` endpoint: `result.get("file")`. -/
structure UploadResult where
  file : Option String
deriving Repr, DecidableEq

/-- `PCloudyAPI.upload_file` (`pcloudy_api.py` lines 118-167).
Strips quotes from the path, checks the token (possibly one auth HTTP
call), *then* validates `os.path.isfile` (`isFile` argument), checks the
cloud listing for a duplicate name, and only then POSTs the upload.
Transport errors and parse failures of the upload call are re-raised. -/
def upload_file (st : ApiState) (now : Nat) (path : String) (isFile : Bool)
    (aResp : HttpOutcome AuthResult) (cResp : HttpOutcome ParsedContent)
    (uResp : HttpOutcome UploadResult) :
    Except PyErr Envelope × ApiState × List HttpCall :=
  let p := stripQuotes path
  match check_token_validity st now aResp with
  | (.error e, st1, n) => (.error e, st1, authCalls n)
  | (.ok _, st1, n) =>
      let tr0 := authCalls n
      if isFile = false then
        (.ok ⟨"Provided path is not a file: " ++ p, true⟩, st1, tr0)
      else
        let file_name := basename p
        match list_cloud_files st1 now aResp cResp with
        | (cloud_files, st2, tr1) =>
            if cloud_files.contains file_name then
              (.ok ⟨"File \x27" ++ file_name ++ "\x27 already exists in your pCloudy cloud drive.", false⟩,
                st2, tr0 ++ tr1)
            else
              let tr := tr0 ++ tr1 ++ [HttpCall.uploadFile]
              match uResp with
              | .transportError m => (.error (.requestError m), st2, tr)
              | .badResponse m => (.error (.otherError m), st2, tr)
              | .ok r =>
                  if strTruthy r.file = false then
                    (.ok ⟨"Failed to get uploaded file name", true⟩, st2, tr)
                  else
                    (.ok ⟨"File \x27" ++ r.file.getD "" ++ "\x27 uploaded successfully", false⟩, st2, tr)

/-- Parsed result of the `/capture_device_screenshot` endpoint: the
optional `filename` and `dir` keys, plus the `file` key the client itself
adds on success (absent in remote responses). -/
structure ScreenshotResult where
  filename : Option String
  dir : Option String
  file : Option String
deriving Repr, DecidableEq

/-- Rendering of a screenshot result dict used in the error message
f-string `f"... API response: {result}"`. -/
def optRepr : Option String → String
  | none => "None"
  | some s => s

/-- Abstract rendering of the Python dict interpolation `{result}` in the
screenshot error message. -/
def screenshotRepr (r : ScreenshotResult) : String :=
  "filename=" ++ optRepr r.filename ++ ", dir=" ++ optRepr r.dir

/-- `capture_screenshot` returns either the (augmented) result dict or an
error envelope — Python lets one function return both shapes. -/
inductive ScreenshotReturn where
  | res (r : ScreenshotResult)
  | env (e : Envelope)
deriving Repr, DecidableEq

/-- `PCloudyAPI.capture_screenshot` (`pcloudy_api.py` lines 192-228).
Checks the token, POSTs, and on a parsed result: if `filename` or `dir` is
falsy returns an error envelope; otherwise builds
`https://device.pcloudy.com/recent/{dir}/{filename}`, stores it under the
`file` key and returns the result dict. Transport/parse failures re-raise. -/
def capture_screenshot (st : ApiState) (now : Nat) (rid : String)
    (aResp : HttpOutcome AuthResult) (sResp : HttpOutcome ScreenshotResult) :
    Except PyErr ScreenshotReturn × ApiState × List HttpCall :=
  match check_token_validity st now aResp with
  | (.error e, st1, n) => (.error e, st1, authCalls n)
  | (.ok _, st1, n) =>
      let tr := authCalls n ++ [HttpCall.screenshot]
      match sResp with
      | .transportError m => (.error (.requestError m), st1, tr)
      | .badResponse m => (.error (.otherError m), st1, tr)
      | .ok r =>
          if strTruthy r.filename = false || strTruthy r.dir = false then
            (.ok (.env ⟨"Failed to get screenshot file URL. API response: " ++ screenshotRepr r, true⟩),
              st1, tr)
          else
            let file_url :=
              "https://device.pcloudy.com/recent/" ++ r.dir.getD "" ++ "/" ++ r.filename.getD ""
            (.ok (.res { r with file := some file_url }), st1, tr)

/-- `PCloudyAPI.release_device` (`pcloudy_api.py` lines 254-280).
Checks the token, POSTs `/release_device`, and returns a success envelope.
The handlers are asymmetric: `except httpx.RequestError: raise` re-raises
transport failures, while the catch-all `except Exception` converts every
other failure (status errors, parse failures, auth `ValueError`s) into an
error envelope. -/
def release_device (st : ApiState) (now : Nat) (rid : String)
    (aResp : HttpOutcome AuthResult) (relResp : HttpOutcome Unit) :
    Except PyErr Envelope × ApiState × List HttpCall :=
  match check_token_validity st now aResp with
  | (.error (.requestError m), st1, n) => (.error (.requestError m), st1, authCalls n)
  | (.error (.otherError m), st1, n) =>
      (.ok ⟨"Error releasing device: " ++ m, true⟩, st1, authCalls n)
  | (.ok _, st1, n) =>
      let tr := authCalls n ++ [HttpCall.releaseDevice]
      match relResp with
      | .transportError m => (.error (.requestError m), st1, tr)
      | .badResponse m => (.ok ⟨"Error releasing device: " ++ m, true⟩, st1, tr)
      | .ok _ => (.ok ⟨"Device with RID " ++ rid ++ " released successfully", false⟩, st1, tr)

/-- A device descriptor as consumed by the tools: `id`, `model`,
`available` (`mcp_tools.py` accesses exactly these keys). -/
structure Device where
  id : String
  model : String
  available : Bool
deriving Repr, DecidableEq

/-- Parsed result of the `/devices` endpoint:
`devices_response.get("models", [])`. -/
structure DevicesResult where
  models : Option (List Device)
deriving Repr, DecidableEq

/-- Parsed result of the `/book_device` endpoint: `booking.get("rid")`. -/
structure BookResult where
  rid : Option String
deriving Repr, DecidableEq

/-- Parsed result of the `/execute_adb` endpoint:
`result.get("output", "No output returned")`. -/
structure AdbResult where
  output : Option String
deriving Repr, DecidableEq

/-- The list comprehension `[d["model"] for d in devices if d["available"]]`
(`mcp_tools.py` line 13). -/
def availableModels (devices : List Device) : List String :=
  (devices.filter (fun d => d.available)).map (fun d => d.model)

/-- `pat.isPrefixOf hay` on character lists, written out structurally. -/
def charListPrefixOf : List Char → List Char → Bool
  | [], _ => true
  | _ :: _, [] => false
  | a :: as, b :: bs => a == b && charListPrefixOf as bs

/-- Contiguous-substring search on character lists. -/
def charListInfixOf (pat : List Char) : List Char → Bool
  | [] => charListPrefixOf pat []
  | b :: bs => charListPrefixOf pat (b :: bs) || charListInfixOf pat bs

/-- Python `pat in hay` for strings: contiguous substring containment. -/
def containsSubstr (hay pat : String) : Bool :=
  charListInfixOf pat.data hay.data

/-- The generator predicate in `book_device_by_name` (`mcp_tools.py`
line 48): `d["available"] and device_name in d["model"].lower()`, where
`q` is the already lowered-and-stripped query. -/
def deviceMatches (q : String) (d : Device) : Bool :=
  d.available && containsSubstr (pyLower d.model) q

/-- Tool `list_available_devices` (`mcp_tools.py` lines 7-31), as a
function of the outcome of `api.get_devices_list()`. Totality models the
guarantee that no exception escapes the tool. -/
def tool_list_available_devices (o : Except PyErr DevicesResult) : Envelope :=
  match o with
  | .error e => ⟨"Error listing devices: " ++ e.msg, true⟩
  | .ok dr =>
      let available_devices := availableModels (dr.models.getD [])
      if available_devices.isEmpty then
        ⟨"No devices are currently available.", true⟩
      else
        ⟨"Available devices: " ++ String.intercalate ", " available_devices, false⟩

/-- Tool `book_device_by_name` (`mcp_tools.py` lines 34-75), as a function
of the client's stored `rid` field and the outcomes of
`api.get_devices_list()` and `api.book_device(...)`. Returns the envelope,
the new value of `api.rid`, and the id the `book_device` call was issued
for (`none` when no booking call was made). -/
def tool_book_device_by_name (rid0 : Option String) (device_name : String)
    (devO : Except PyErr DevicesResult) (bookO : Except PyErr BookResult) :
    Envelope × Option String × Option String :=
  match devO with
  | .error e => (⟨"Error booking device: " ++ e.msg, true⟩, rid0, none)
  | .ok dr =>
      let devices := dr.models.getD []
      if devices.isEmpty then
        (⟨"No devices available", true⟩, rid0, none)
      else
        let q := pyStrip (pyLower device_name)
        match devices.find? (deviceMatches q) with
        | none =>
            (⟨"No available device found matching \x27" ++ q ++
                "\x27. Please choose from the available devices.", true⟩, rid0, none)
        | some d =>
            match bookO with
            | .error e => (⟨"Error booking device: " ++ e.msg, true⟩, rid0, some d.id)
            | .ok booking =>
                let newRid := booking.rid
                if strTruthy newRid = false then
                  (⟨"Failed to get booking ID", true⟩, newRid, some d.id)
                else
                  (⟨"Device \x27" ++ d.model ++ "\x27 booked successfully. RID: " ++
                      newRid.getD "", false⟩, newRid, some d.id)

/-- Tool `upload_file` (`mcp_tools.py` lines 78-90): passes the client's
envelope through, converting exceptions. -/
def tool_upload_file (o : Except PyErr Envelope) : Envelope :=
  match o with
  | .error e => ⟨"Error uploading file: " ++ e.msg, true⟩
  | .ok r => r

/-- Tool `execute_adb_command` (`mcp_tools.py` lines 93-109). -/
def tool_execute_adb_command (o : Except PyErr AdbResult) : Envelope :=
  match o with
  | .error e => ⟨"Error executing ADB command: " ++ e.msg, true⟩
  | .ok r =>
      let output := r.output.getD "No output returned"
      ⟨"ADB command executed successfully: " ++ output, false⟩

/-- Tool `capture_device_screenshot` (`mcp_tools.py` lines 112-134).
`result.get("file")` yields the `file` field of a result dict and nothing
from an error-envelope dict (which has only `content`/`isError` keys). -/
def tool_capture_device_screenshot (o : Except PyErr ScreenshotReturn) : Envelope :=
  match o with
  | .error e => ⟨"Error capturing screenshot: " ++ e.msg, true⟩
  | .ok ret =>
      let file_url : Option String :=
        match ret with
        | .res r => r.file
        | .env _ => none
      if strTruthy file_url = false then
        ⟨"Failed to get screenshot file URL", true⟩
      else
        ⟨"Screenshot captured successfully: " ++ file_url.getD "", false⟩

/-- Tool `install_and_launch_app` (`mcp_tools.py` lines 137-152); the
client result's content is ignored on success. -/
def tool_install_and_launch_app (rid filename : String) (o : Except PyErr Unit) : Envelope :=
  match o with
  | .error e => ⟨"Error installing and launching app: " ++ e.msg, true⟩
  | .ok _ =>
      ⟨"App \x27" ++ filename ++ "\x27 installed and launched successfully on RID: " ++ rid, false⟩

/-- Tool `release_device` (`mcp_tools.py` lines 155-170); note the client's
returned envelope is discarded and replaced by a fixed success message. -/
def tool_release_device (rid : String) (o : Except PyErr Envelope) : Envelope :=
  match o with
  | .error e => ⟨"Error releasing device: " ++ e.msg, true⟩
  | .ok _ => ⟨"Device with RID " ++ rid ++ " released successfully", false⟩

/-- Tool `get_device_page_url` (`mcp_tools.py` lines 173-184): passes the
client's envelope through, converting exceptions. -/
def tool_get_device_page_url (o : Except PyErr Envelope) : Envelope :=
  match o with
  | .error e => ⟨"Error generating device page URL: " ++ e.msg, true⟩
  | .ok r => r

/-- An envelope that reports the failure `e`: flagged as an error, with
`str(e)` embedded in the content text. -/
def errEnvelopeFor (v : Envelope) (e : PyErr) : Prop :=
  v.isError = true ∧ ∃ pre post, v.text = pre ++ e.msg ++ post

/-- Helper: `list_cloud_files` only ever performs auth and `/content`
calls, never an upload call. -/
theorem list_cloud_files_no_upload_call (st : ApiState) (now : Nat)
    (aResp : HttpOutcome AuthResult) (cResp : HttpOutcome ParsedContent) :
    HttpCall.uploadFile ∉ (list_cloud_files st now aResp cResp).2.2 := by
  unfold list_cloud_files
  rcases check_token_validity st now aResp with ⟨r, st1, n⟩
  cases r with
  | error e => simp [authCalls, List.mem_replicate]
  | ok t =>
      cases cResp with
      | transportError m => simp [authCalls, List.mem_replicate]
      | badResponse m => simp [authCalls, List.mem_replicate]
      | ok pc => cases pc <;> simp [authCalls, List.mem_replicate]

/-- C1 (counterexample): at a concrete state with a valid token, a
transport-level failure of the `/release_device` POST makes
`release_device` raise (propagate `httpx.RequestError`) instead of
returning an error envelope, contradicting the claim that every failure of
`release_device` is converted locally. -/
theorem release_device_transport_failure_raises_cex :
    (release_device ⟨some "tok", some 5, none⟩ 10 "r1" (.ok ⟨some "t"⟩)
        (.transportError "connection failed")).1
      = Except.error (.requestError "connection failed") := by decide

/-- C1 (amended): `release_device` converts non-transport failures (HTTP
status errors and envelope-parse failures, i.e. the catch-all
`except Exception` branch) into a local error envelope, and returns a
success envelope on success, but a transport-level failure
(`httpx.RequestError`) of the POST propagates out as an exception. -/
theorem release_device_converts_nontransport_failures
    (st : ApiState) (now : Nat) (rid m : String) (aResp : HttpOutcome AuthResult)
    (tok : String) (st1 : ApiState) (n : Nat)
    (h : check_token_validity st now aResp = (.ok tok, st1, n)) :
    (release_device st now rid aResp (.badResponse m)).1
        = .ok ⟨"Error releasing device: " ++ m, true⟩
    ∧ (release_device st now rid aResp (.ok ())).1
        = .ok ⟨"Device with RID " ++ rid ++ " released successfully", false⟩
    ∧ (release_device st now rid aResp (.transportError m)).1
        = .error (.requestError m) := by
  refine ⟨?_, ?_, ?_⟩ <;> simp [release_device, h]

/-- C1 (witness): the amended theorem applied at a concrete state. -/
theorem release_device_converts_nontransport_failures_witness :
    (release_device ⟨some "tok", some 5, none⟩ 10 "r1" (.ok ⟨some "t"⟩)
        (.badResponse "Invalid response format")).1
      = .ok ⟨"Error releasing device: " ++ "Invalid response format", true⟩ :=
  (release_device_converts_nontransport_failures ⟨some "tok", some 5, none⟩ 10 "r1"
      "Invalid response format" (.ok ⟨some "t"⟩) "tok" ⟨some "tok", some 5, none⟩ 0
      (by decide)).1

/-- C2 (counterexample): starting from a state with no token and a path
that is not a regular file, `upload_file` performs an authentication HTTP
call before reporting the path error — so path validation does *not*
precede every network call, contradicting the claim that the error is
reported "without any HTTP request having been made". -/
theorem upload_file_auth_call_precedes_validation_cex :
    (upload_file ⟨none, none, none⟩ 100 "missing.apk" false (.ok ⟨some "tok"⟩)
        (.ok (.dict (some []))) (.ok ⟨some "f"⟩)).2.2 = [HttpCall.auth]
    ∧ (upload_file ⟨none, none, none⟩ 100 "missing.apk" false (.ok ⟨some "tok"⟩)
        (.ok (.dict (some []))) (.ok ⟨some "f"⟩)).1
        = .ok ⟨"Provided path is not a file: missing.apk", true⟩ := by
  refine ⟨by decide, by decide⟩

/-- C2 (amended): for a path that is not a regular file, `upload_file`
fails fast with a descriptive error envelope after the token check but
before any cloud-listing or upload HTTP call: the only HTTP traffic
possible before the validation error is the token-refresh authentication
call made by `check_token_validity`. -/
theorem upload_file_validation_precedes_upload_calls
    (st : ApiState) (now : Nat) (path : String)
    (aResp : HttpOutcome AuthResult) (cResp : HttpOutcome ParsedContent)
    (uResp : HttpOutcome UploadResult) :
    (upload_file st now path false aResp cResp uResp).2.2
        = authCalls (check_token_validity st now aResp).2.2
    ∧ HttpCall.uploadFile ∉ (upload_file st now path false aResp cResp uResp).2.2
    ∧ HttpCall.content ∉ (upload_file st now path false aResp cResp uResp).2.2
    ∧ (∀ tok st1 n, check_token_validity st now aResp = (.ok tok, st1, n) →
        (upload_file st now path false aResp cResp uResp).1
          = .ok ⟨"Provided path is not a file: " ++ stripQuotes path, true⟩) := by
  have htr : (upload_file st now path false aResp cResp uResp).2.2
      = authCalls (check_token_validity st now aResp).2.2 := by
    unfold upload_file
    rcases check_token_validity st now aResp with ⟨r, st1, n⟩
    cases r <;> simp
  refine ⟨htr, ?_, ?_, ?_⟩
  · rw [htr]; simp [authCalls, List.mem_replicate]
  · rw [htr]; simp [authCalls, List.mem_replicate]
  · intro tok st1 n h
    simp [upload_file, h]

/-- C2 (witness): the amended theorem applied at a concrete input with a
valid token, where the invalid path is reported with no HTTP call at all. -/
theorem upload_file_validation_precedes_upload_calls_witness :
    (upload_file ⟨some "tok", some 5, none⟩ 10 "missing.apk" false (.ok ⟨some "t"⟩)
        (.ok (.dict (some []))) (.ok ⟨some "f"⟩)).1
      = .ok ⟨"Provided path is not a file: " ++ stripQuotes "missing.apk", true⟩ :=
  (upload_file_validation_precedes_upload_calls ⟨some "tok", some 5, none⟩ 10 "missing.apk"
      (.ok ⟨some "t"⟩) (.ok (.dict (some []))) (.ok ⟨some "f"⟩)).2.2.2
    "tok" ⟨some "tok", some 5, none⟩ 0 (by decide)

/-- C3: with a token acquired at a (positive) time `T` and the 3600s
threshold: a call whose elapsed time is strictly below the threshold
returns the current token with state unchanged and zero authentication
calls; a call whose elapsed time strictly exceeds the threshold performs
exactly one re-authentication (its result and state are those of
`authenticate`); and a call with no stored token likewise performs exactly
one authentication call. -/
theorem check_token_validity_reuse_and_refresh (tok : String) (T : Nat)
    (rid0 : Option String) (resp : HttpOutcome AuthResult)
    (htok : tok ≠ "") (hT : 0 < T) :
    (∀ now : Nat, (now : Int) - (T : Int) < (TOKEN_REFRESH_THRESHOLD : Int) →
       check_token_validity ⟨some tok, some T, rid0⟩ now resp
         = (.ok tok, ⟨some tok, some T, rid0⟩, 0))
    ∧ (∀ now : Nat, (now : Int) - (T : Int) > (TOKEN_REFRESH_THRESHOLD : Int) →
       check_token_validity ⟨some tok, some T, rid0⟩ now resp
         = (match authenticate ⟨some tok, some T, rid0⟩ now resp with
            | (r, st2) => (r, st2, 1)))
    ∧ (∀ (now : Nat) (st0 : ApiState), st0.auth_token = none →
       check_token_validity st0 now resp
         = (match authenticate st0 now resp with
            | (r, st2) => (r, st2, 1))) := by
  refine ⟨?_, ?_, ?_⟩
  · intro now hlt
    have hcond : ¬(T ≠ 0 ∧ (now : Int) - (T : Int) > (TOKEN_REFRESH_THRESHOLD : Int)) := by
      rintro ⟨-, hgt⟩
      omega
    simp [check_token_validity, strTruthy, htok, hcond]
  · intro now hgt
    have hcond : T ≠ 0 ∧ (now : Int) - (T : Int) > (TOKEN_REFRESH_THRESHOLD : Int) :=
      ⟨by omega, hgt⟩
    simp [check_token_validity, strTruthy, htok, hcond]
  · intro now st0 h0
    simp [check_token_validity, h0, strTruthy]

/-- C3 (witness): with a token acquired at `T = 1000`, a call at
`T + 3599` reuses it with no auth call, a call at `T + 3601`
re-authenticates exactly once, and a call with no token authenticates. -/
theorem check_token_validity_reuse_and_refresh_witness :
    check_token_validity ⟨some "tok", some 1000, none⟩ 4599 (.ok ⟨some "t2"⟩)
        = (.ok "tok", ⟨some "tok", some 1000, none⟩, 0)
    ∧ check_token_validity ⟨some "tok", some 1000, none⟩ 4601 (.ok ⟨some "t2"⟩)
        = (.ok "t2", ⟨some "t2", some 4601, none⟩, 1)
    ∧ check_token_validity ⟨none, none, none⟩ 7 (.ok ⟨some "t2"⟩)
        = (.ok "t2", ⟨some "t2", some 7, none⟩, 1) := by
  have h := check_token_validity_reuse_and_refresh "tok" 1000 none (.ok ⟨some "t2"⟩)
      (by decide) (by decide)
  refine ⟨h.1 4599 (by decide), (h.2.1 4601 (by decide)).trans (by decide),
    (h.2.2 7 ⟨none, none, none⟩ rfl).trans (by decide)⟩

/-- C4: when the (stripped) path names a regular file whose base name
already appears in the cloud listing returned by `list_cloud_files`,
`upload_file` performs zero upload HTTP calls and returns a success
envelope (`isError = false`) stating the file already exists. -/
theorem upload_file_idempotent_on_existing_name
    (st : ApiState) (now : Nat) (path : String)
    (aResp : HttpOutcome AuthResult) (cResp : HttpOutcome ParsedContent)
    (uResp : HttpOutcome UploadResult) (tok : String) (st1 : ApiState) (n : Nat)
    (hTok : check_token_validity st now aResp = (.ok tok, st1, n))
    (hIn : (list_cloud_files st1 now aResp cResp).1.contains
        (basename (stripQuotes path)) = true) :
    (upload_file st now path true aResp cResp uResp).1
        = .ok ⟨"File \x27" ++ basename (stripQuotes path) ++
            "\x27 already exists in your pCloudy cloud drive.", false⟩
    ∧ HttpCall.uploadFile ∉ (upload_file st now path true aResp cResp uResp).2.2 := by
  have hnol := list_cloud_files_no_upload_call st1 now aResp cResp
  rcases hlcf : list_cloud_files st1 now aResp cResp with ⟨cf, st2, tr1⟩
  rw [hlcf] at hIn hnol
  have hmem : basename (stripQuotes path) ∈ cf := by simpa using hIn
  constructor
  · simp [upload_file, hTok, hlcf, hmem]
  · simp only [upload_file, hTok, hlcf]
    simp [hmem, authCalls, List.mem_replicate]
    intro hx
    exact hnol hx

/-- C4 (witness): uploading `/tmp/app.apk` when `app.apk` is already in
the cloud listing short-circuits with the success envelope. -/
theorem upload_file_idempotent_on_existing_name_witness :
    (upload_file ⟨some "tok", some 5, none⟩ 10 "/tmp/app.apk" true (.ok ⟨some "t"⟩)
        (.ok (.dict (some ["app.apk"]))) (.ok ⟨some "f"⟩)).1
      = .ok ⟨"File \x27" ++ basename (stripQuotes "/tmp/app.apk") ++
          "\x27 already exists in your pCloudy cloud drive.", false⟩ :=
  (upload_file_idempotent_on_existing_name ⟨some "tok", some 5, none⟩ 10 "/tmp/app.apk"
      (.ok ⟨some "t"⟩) (.ok (.dict (some ["app.apk"]))) (.ok ⟨some "f"⟩)
      "tok" ⟨some "tok", some 5, none⟩ 0 (by decide) (by decide)).1

/-- C5: on a parsed screenshot response carrying a non-empty `filename`
and a non-empty `dir`, `capture_screenshot` returns the result dict with
the file URL exactly `https://device.pcloudy.com/recent/{dir}/{filename}`;
when either field is missing the operation returns an error envelope. -/
theorem capture_screenshot_url_construction (st : ApiState) (now : Nat) (rid : String)
    (aResp : HttpOutcome AuthResult) (r : ScreenshotResult)
    (tok : String) (st1 : ApiState) (n : Nat)
    (hTok : check_token_validity st now aResp = (.ok tok, st1, n)) :
    (∀ f d, r.filename = some f → f ≠ "" → r.dir = some d → d ≠ "" →
       (capture_screenshot st now rid aResp (.ok r)).1
         = .ok (.res { r with
             file := some ("https://device.pcloudy.com/recent/" ++ d ++ "/" ++ f) }))
    ∧ ((r.filename = none ∨ r.dir = none) →
       ∃ ev : Envelope, (capture_screenshot st now rid aResp (.ok r)).1 = .ok (.env ev)
         ∧ ev.isError = true) := by
  constructor
  · intro f d hf hfne hd hdne
    simp [capture_screenshot, hTok, hf, hd, strTruthy, hfne, hdne]
  · intro hmiss
    refine ⟨⟨"Failed to get screenshot file URL. API response: " ++ screenshotRepr r, true⟩,
      ?_, rfl⟩
    rcases hmiss with h | h <;> simp [capture_screenshot, hTok, h, strTruthy]

/-- C5 (witness): `filename="shot.png"`, `dir="abc123"` yields exactly
`https://device.pcloudy.com/recent/abc123/shot.png`; a missing `dir`
yields an error envelope. -/
theorem capture_screenshot_url_construction_witness :
    (capture_screenshot ⟨some "tok", some 5, none⟩ 10 "r1" (.ok ⟨some "t"⟩)
        (.ok ⟨some "shot.png", some "abc123", none⟩)).1
      = .ok (.res ⟨some "shot.png", some "abc123",
          some ("https://device.pcloudy.com/recent/" ++ "abc123" ++ "/" ++ "shot.png")⟩)
    ∧ ∃ ev : Envelope,
        (capture_screenshot ⟨some "tok", some 5, none⟩ 10 "r1" (.ok ⟨some "t"⟩)
            (.ok ⟨some "shot.png", none, none⟩)).1 = .ok (.env ev)
        ∧ ev.isError = true := by
  have h1 := capture_screenshot_url_construction ⟨some "tok", some 5, none⟩ 10 "r1"
      (.ok ⟨some "t"⟩) ⟨some "shot.png", some "abc123", none⟩
      "tok" ⟨some "tok", some 5, none⟩ 0 (by decide)
  have h2 := capture_screenshot_url_construction ⟨some "tok", some 5, none⟩ 10 "r1"
      (.ok ⟨some "t"⟩) ⟨some "shot.png", none, none⟩
      "tok" ⟨some "tok", some 5, none⟩ 0 (by decide)
  exact ⟨h1.1 "shot.png" "abc123" rfl (by decide) rfl (by decide),
    h2.2 (Or.inr rfl)⟩

/-- C6: `book_device_by_name` fails with an error envelope when the device
list is empty or absent; fails with the "No available device found"
message when no available device's (lowercased) model contains the
normalized query; and otherwise issues the booking call for exactly the
first device in listing order that is available and whose model contains
the query case-insensitively. -/
theorem book_device_by_name_matching (rid0 : Option String) (name : String)
    (dr : DevicesResult) (bookO : Except PyErr BookResult) :
    (dr.models.getD [] = [] →
       (tool_book_device_by_name rid0 name (.ok dr) bookO).1
         = ⟨"No devices available", true⟩
       ∧ (tool_book_device_by_name rid0 name (.ok dr) bookO).2.2 = none)
    ∧ (dr.models.getD [] ≠ [] →
       (dr.models.getD []).find? (deviceMatches (pyStrip (pyLower name))) = none →
       (tool_book_device_by_name rid0 name (.ok dr) bookO).1
         = ⟨"No available device found matching \x27" ++ pyStrip (pyLower name) ++
             "\x27. Please choose from the available devices.", true⟩
       ∧ (tool_book_device_by_name rid0 name (.ok dr) bookO).2.2 = none)
    ∧ (∀ d, (dr.models.getD []).find? (deviceMatches (pyStrip (pyLower name))) = some d →
       (tool_book_device_by_name rid0 name (.ok dr) bookO).2.2 = some d.id
       ∧ d.available = true
       ∧ containsSubstr (pyLower d.model) (pyStrip (pyLower name)) = true
       ∧ ∃ ys zs, dr.models.getD [] = ys ++ d :: zs
           ∧ ∀ y ∈ ys, deviceMatches (pyStrip (pyLower name)) y = false) := by
  refine ⟨?_, ?_, ?_⟩
  · intro hdev
    simp [tool_book_device_by_name, hdev]
  · intro hne hfind
    have hie : (dr.models.getD []).isEmpty = false := by
      simpa [List.isEmpty_iff] using hne
    simp [tool_book_device_by_name, hie, hfind]
  · intro d hfind
    have hne : dr.models.getD [] ≠ [] := by
      intro h
      rw [h] at hfind
      simp [List.find?] at hfind
    have hie : (dr.models.getD []).isEmpty = false := by
      simpa [List.isEmpty_iff] using hne
    have hspec := List.find?_eq_some.mp hfind
    obtain ⟨hp, ys, zs, heq, hprev⟩ := hspec
    have hp' : deviceMatches (pyStrip (pyLower name)) d = true := hp
    have hmatch : d.available = true
        ∧ containsSubstr (pyLower d.model) (pyStrip (pyLower name)) = true := by
      simpa [deviceMatches] using hp'
    refine ⟨?_, hmatch.1, hmatch.2, ys, zs, heq, ?_⟩
    · cases bookO with
      | error e => simp [tool_book_device_by_name, hie, hfind]
      | ok b =>
          simp only [tool_book_device_by_name, hie, hfind]
          cases hsb : strTruthy b.rid <;> simp [hsb]
    · intro y hy
      have := hprev y hy
      simpa using this

/-- C6 (witness): with only `Galaxy S21` available, the query `"galaxy"`
books that device (first match) and the query `"S22"` fails with the
"No available device found" envelope. -/
theorem book_device_by_name_matching_witness :
    (tool_book_device_by_name none "galaxy"
        (.ok ⟨some [⟨"d1", "Galaxy S21", true⟩]⟩) (.ok ⟨some "r9"⟩)).2.2 = some "d1"
    ∧ (tool_book_device_by_name none "S22"
        (.ok ⟨some [⟨"d1", "Galaxy S21", true⟩]⟩) (.ok ⟨some "r9"⟩)).1
        = ⟨"No available device found matching \x27" ++ pyStrip (pyLower "S22") ++
            "\x27. Please choose from the available devices.", true⟩ := by
  have h1 := book_device_by_name_matching none "galaxy"
      ⟨some [⟨"d1", "Galaxy S21", true⟩]⟩ (.ok ⟨some "r9"⟩)
  have h2 := book_device_by_name_matching none "S22"
      ⟨some [⟨"d1", "Galaxy S21", true⟩]⟩ (.ok ⟨some "r9"⟩)
  exact ⟨(h1.2.2 ⟨"d1", "Galaxy S21", true⟩ (by decide)).1,
    (h2.2.1 (by decide) (by decide)).1⟩

/-- C7: on a device list returned without transport error, the
`list_available_devices` tool keeps exactly the models of the descriptors
marked available; an empty filtered list yields `isError = true` with the
message "No devices are currently available.", a non-empty one yields
`isError = false` listing the available model names. -/
theorem list_available_devices_filtering (dr : DevicesResult) :
    (availableModels (dr.models.getD []) = [] →
       tool_list_available_devices (.ok dr)
         = ⟨"No devices are currently available.", true⟩)
    ∧ (availableModels (dr.models.getD []) ≠ [] →
       tool_list_available_devices (.ok dr)
         = ⟨"Available devices: " ++
             String.intercalate ", " (availableModels (dr.models.getD [])), false⟩) := by
  constructor
  · intro h
    simp [tool_list_available_devices, h]
  · intro h
    have hie : (availableModels (dr.models.getD [])).isEmpty = false := by
      simpa [List.isEmpty_iff] using h
    simp [tool_list_available_devices, hie]

/-- C7 (witness): all devices unavailable yields the error envelope;
a mixed list yields the available models only. -/
theorem list_available_devices_filtering_witness :
    tool_list_available_devices (.ok ⟨some [⟨"d1", "Galaxy S21", false⟩]⟩)
        = ⟨"No devices are currently available.", true⟩
    ∧ tool_list_available_devices
        (.ok ⟨some [⟨"d1", "A", true⟩, ⟨"d2", "B", false⟩, ⟨"d3", "C", true⟩]⟩)
        = ⟨"Available devices: " ++ String.intercalate ", "
            (availableModels [⟨"d1", "A", true⟩, ⟨"d2", "B", false⟩, ⟨"d3", "C", true⟩]), false⟩ := by
  exact ⟨(list_available_devices_filtering ⟨some [⟨"d1", "Galaxy S21", false⟩]⟩).1 (by decide),
    (list_available_devices_filtering
        ⟨some [⟨"d1", "A", true⟩, ⟨"d2", "B", false⟩, ⟨"d3", "C", true⟩]⟩).2 (by decide)⟩

/-- C8: every tool of the adapter converts an exception raised by the
client operation it wraps into an `isError = true` envelope whose text
contains `str(e)`; no exception crosses the tool boundary (each tool is a
total function into `Envelope`). For `book_device_by_name` both client
calls (device listing and booking) are covered. -/
theorem tools_convert_all_exceptions (e : PyErr) (rid0 : Option String)
    (name rid filename : String) :
    errEnvelopeFor (tool_list_available_devices (.error e)) e
    ∧ (∀ bookO, errEnvelopeFor (tool_book_device_by_name rid0 name (.error e) bookO).1 e)
    ∧ (∀ dr d, (dr.models.getD []).find? (deviceMatches (pyStrip (pyLower name))) = some d →
        errEnvelopeFor (tool_book_device_by_name rid0 name (.ok dr) (.error e)).1 e)
    ∧ errEnvelopeFor (tool_upload_file (.error e)) e
    ∧ errEnvelopeFor (tool_execute_adb_command (.error e)) e
    ∧ errEnvelopeFor (tool_capture_device_screenshot (.error e)) e
    ∧ errEnvelopeFor (tool_install_and_launch_app rid filename (.error e)) e
    ∧ errEnvelopeFor (tool_release_device rid (.error e)) e
    ∧ errEnvelopeFor (tool_get_device_page_url (.error e)) e := by
  refine ⟨⟨rfl, "Error listing devices: ", "", by simp [tool_list_available_devices]⟩,
    fun bookO => ⟨rfl, "Error booking device: ", "", by simp [tool_book_device_by_name]⟩,
    ?_,
    ⟨rfl, "Error uploading file: ", "", by simp [tool_upload_file]⟩,
    ⟨rfl, "Error executing ADB command: ", "", by simp [tool_execute_adb_command]⟩,
    ⟨rfl, "Error capturing screenshot: ", "", by simp [tool_capture_device_screenshot]⟩,
    ⟨rfl, "Error installing and launching app: ", "", by simp [tool_install_and_launch_app]⟩,
    ⟨rfl, "Error releasing device: ", "", by simp [tool_release_device]⟩,
    ⟨rfl, "Error generating device page URL: ", "", by simp [tool_get_device_page_url]⟩⟩
  intro dr d hfind
  have hne : dr.models.getD [] ≠ [] := by
    intro h
    rw [h] at hfind
    simp [List.find?] at hfind
  have hie : (dr.models.getD []).isEmpty = false := by
    simpa [List.isEmpty_iff] using hne
  refine ⟨?_, "Error booking device: ", "", ?_⟩ <;>
    simp [tool_book_device_by_name, hie, hfind, errEnvelopeFor]

/-- C8 (witness): the two hypothesis-bearing conjuncts instantiated: a
booking-call exception with a found device, and the device-listing
exception, both produce error envelopes embedding the message. -/
theorem tools_convert_all_exceptions_witness :
    errEnvelopeFor (tool_book_device_by_name none "galaxy"
        (.ok ⟨some [⟨"d1", "Galaxy S21", true⟩]⟩)
        (.error (.requestError "boom"))).1 (.requestError "boom")
    ∧ errEnvelopeFor (tool_execute_adb_command (.error (.requestError "boom")))
        (.requestError "boom") := by
  have h := tools_convert_all_exceptions (.requestError "boom") none "galaxy" "r1" "app.apk"
  exact ⟨h.2.2.1 ⟨some [⟨"d1", "Galaxy S21", true⟩]⟩ ⟨"d1", "Galaxy S21", true⟩ (by decide),
    h.2.2.2.2.1⟩

/-- C9: whenever `book_device_by_name` finds an available matching device
and the booking call returns a parsed result, the client's stored `rid`
field is overwritten with `booking.get("rid")` before that value is
checked: the new `rid` equals the response's `rid` for every prior value,
and when the response lacks `rid` the stored field becomes `none` (the
previous booking's rid is lost) while the tool reports
"Failed to get booking ID" with `isError = true`. -/
theorem book_device_by_name_overwrites_rid (rid0 : Option String) (name : String)
    (dr : DevicesResult) (b : BookResult) (d : Device)
    (hfind : (dr.models.getD []).find? (deviceMatches (pyStrip (pyLower name))) = some d) :
    (tool_book_device_by_name rid0 name (.ok dr) (.ok b)).2.1 = b.rid
    ∧ (b.rid = none →
        (tool_book_device_by_name rid0 name (.ok dr) (.ok b)).1
          = ⟨"Failed to get booking ID", true⟩
        ∧ (tool_book_device_by_name rid0 name (.ok dr) (.ok b)).2.1 = none) := by
  have hne : dr.models.getD [] ≠ [] := by
    intro h
    rw [h] at hfind
    simp [List.find?] at hfind
  have hie : (dr.models.getD []).isEmpty = false := by
    simpa [List.isEmpty_iff] using hne
  constructor
  · simp only [tool_book_device_by_name, hie, hfind]
    cases hsb : strTruthy b.rid <;> simp [hsb]
  · intro hb
    constructor <;> simp [tool_book_device_by_name, hie, hfind, hb, strTruthy]

/-- C9 (witness): a booking response without `rid` wipes a previously
stored rid (`some "old"` becomes `none`) and yields the failure envelope. -/
theorem book_device_by_name_overwrites_rid_witness :
    (tool_book_device_by_name (some "old") "galaxy"
        (.ok ⟨some [⟨"d1", "Galaxy S21", true⟩]⟩) (.ok ⟨none⟩)).1
      = ⟨"Failed to get booking ID", true⟩
    ∧ (tool_book_device_by_name (some "old") "galaxy"
        (.ok ⟨some [⟨"d1", "Galaxy S21", true⟩]⟩) (.ok ⟨none⟩)).2.1 = none :=
  (book_device_by_name_overwrites_rid (some "old") "galaxy"
      ⟨some [⟨"d1", "Galaxy S21", true⟩]⟩ ⟨none⟩ ⟨"d1", "Galaxy S21", true⟩
      (by decide)).2 rfl

/-- Helper: the constructed screenshot URL is never the empty string. -/
theorem screenshot_url_ne_empty (a b : String) :
    "https://device.pcloudy.com/recent/" ++ a ++ "/" ++ b ≠ "" := by
  intro h
  have hlen := congrArg String.length h
  simp only [String.length_append] at hlen
  have h1 : ("https://device.pcloudy.com/recent/" : String).length = 34 := by decide
  have h2 : ("" : String).length = 0 := by decide
  have h3 : ("/" : String).length = 1 := by decide
  omega

/-- C10: composing the client and tool screenshot paths: when the parsed
result has truthy `filename` and `dir`, the client hands the tool a result
dict whose `file` key holds the constructed URL, so the tool's inner
"Failed to get screenshot file URL" branch is not taken and it returns the
success envelope; otherwise the client returned its own error envelope
(`isError = true`, descriptive text) and the tool's inner branch fires,
replacing that text with its shorter fixed message while keeping
`isError = true`. -/
theorem capture_screenshot_tool_composition (st : ApiState) (now : Nat) (rid : String)
    (aResp : HttpOutcome AuthResult) (r : ScreenshotResult)
    (tok : String) (st1 : ApiState) (n : Nat)
    (hTok : check_token_validity st now aResp = (.ok tok, st1, n)) :
    (strTruthy r.filename = true → strTruthy r.dir = true →
       (capture_screenshot st now rid aResp (.ok r)).1
         = .ok (.res { r with file := some ("https://device.pcloudy.com/recent/" ++
             r.dir.getD "" ++ "/" ++ r.filename.getD "") })
       ∧ tool_capture_device_screenshot (capture_screenshot st now rid aResp (.ok r)).1
         = ⟨"Screenshot captured successfully: " ++ ("https://device.pcloudy.com/recent/" ++
             r.dir.getD "" ++ "/" ++ r.filename.getD ""), false⟩)
    ∧ (¬(strTruthy r.filename = true ∧ strTruthy r.dir = true) →
       ∃ ev : Envelope,
         (capture_screenshot st now rid aResp (.ok r)).1 = .ok (.env ev)
         ∧ ev.isError = true
         ∧ tool_capture_device_screenshot (capture_screenshot st now rid aResp (.ok r)).1
           = ⟨"Failed to get screenshot file URL", true⟩) := by
  constructor
  · intro hf hd
    have hcl : (capture_screenshot st now rid aResp (.ok r)).1
        = .ok (.res { r with file := some ("https://device.pcloudy.com/recent/" ++
            r.dir.getD "" ++ "/" ++ r.filename.getD "") }) := by
      simp [capture_screenshot, hTok, hf, hd]
    refine ⟨hcl, ?_⟩
    rw [hcl]
    have hu := screenshot_url_ne_empty (r.dir.getD "") (r.filename.getD "")
    simp [tool_capture_device_screenshot, strTruthy, hu]
  · intro hmiss
    have hcond : strTruthy r.filename = false ∨ strTruthy r.dir = false := by
      rcases hx : strTruthy r.filename <;> rcases hy : strTruthy r.dir <;> simp_all
    have hcl : (capture_screenshot st now rid aResp (.ok r)).1
        = .ok (.env ⟨"Failed to get screenshot file URL. API response: " ++
            screenshotRepr r, true⟩) := by
      rcases hcond with h | h <;> simp [capture_screenshot, hTok, h]
    refine ⟨_, hcl, rfl, ?_⟩
    rw [hcl]
    simp [tool_capture_device_screenshot, strTruthy]

/-- C10 (witness): the composition at a concrete success result and a
concrete missing-`dir` result. -/
theorem capture_screenshot_tool_composition_witness :
    tool_capture_device_screenshot
        (capture_screenshot ⟨some "tok", some 5, none⟩ 10 "r1" (.ok ⟨some "t"⟩)
          (.ok ⟨some "shot.png", some "abc123", none⟩)).1
      = ⟨"Screenshot captured successfully: " ++ ("https://device.pcloudy.com/recent/" ++
          "abc123" ++ "/" ++ "shot.png"), false⟩
    ∧ tool_capture_device_screenshot
        (capture_screenshot ⟨some "tok", some 5, none⟩ 10 "r1" (.ok ⟨some "t"⟩)
          (.ok ⟨some "shot.png", none, none⟩)).1
      = ⟨"Failed to get screenshot file URL", true⟩ := by
  have h1 := capture_screenshot_tool_composition ⟨some "tok", some 5, none⟩ 10 "r1"
      (.ok ⟨some "t"⟩) ⟨some "shot.png", some "abc123", none⟩
      "tok" ⟨some "tok", some 5, none⟩ 0 (by decide)
  have h2 := capture_screenshot_tool_composition ⟨some "tok", some 5, none⟩ 10 "r1"
      (.ok ⟨some "t"⟩) ⟨some "shot.png", none, none⟩
      "tok" ⟨some "tok", some 5, none⟩ 0 (by decide)
  refine ⟨(h1.1 (by decide) (by decide)).2, ?_⟩
  obtain ⟨ev, -, -, htool⟩ := h2.2 (by decide)
  exact htool
